import Mathlib

/-!
Shallow embedding of the rust-vcf-parser crate
(src/tutorials/phase-4-production/04-rust-parsing/rust-vcf-parser):
`error.rs`, `types.rs` and `parser.rs`, together with proofs about the
claims of the specification.

Modelling conventions:
* Rust strings are Lean `String`s; a file handed to `VcfParser::parse`
  is modelled as the list of its lines (the `BufRead::lines` iterator).
* Rust `u64`/`i64`/`u8` `FromStr` parsing is modelled by `parseU64?`,
  `parseI64?`, `parseU8?` over `Nat`/`Int` with the exact bounds.
* Rust `f64` `FromStr` parsing is modelled by `parseF64?`; finite values
  are represented as exact rationals (rounding to binary floating point
  is irrelevant to every claim), and the special values inf/infinity/nan
  are represented symbolically.
* Rust `HashMap` is modelled as an association list with
  replace-or-append insertion (`insertAssoc`), which has the same lookup
  semantics.
* the mutable state of `VcfParser` (`warnings`, `current_line`) is threaded
  explicitly; `parse` returns the result together with the collected
  warnings.
-/

/-- Split a list of characters on a separator, keeping empty segments
(the semantics of Rust `str::split(char)` and of the manual
`memchr`-based loop in `VcfParser::parse_record`). -/
def splitCharAux (sep : Char) : List Char → List Char → List (List Char)
  | [], acc => [acc.reverse]
  | c :: cs, acc =>
    if c = sep then acc.reverse :: splitCharAux sep cs []
    else splitCharAux sep cs (c :: acc)

/-- `splitChar sep s` is Rust `s.split(sep)` collected to a list. -/
def splitChar (sep : Char) (s : String) : List String :=
  (splitCharAux sep s.toList []).map (fun cs => ⟨cs⟩)

/-- Rust `str::contains(char)`. -/
def containsChar (c : Char) (s : String) : Bool :=
  s.toList.contains c

/-- Rust `str::find(char)` followed by splitting in key and value:
returns the text before the first occurrence and the text after it. -/
def splitFirstOnAux (c : Char) : List Char → List Char → Option (List Char × List Char)
  | [], _ => none
  | x :: xs, acc =>
    if x = c then some (acc.reverse, xs) else splitFirstOnAux c xs (x :: acc)

def splitFirstOn (c : Char) (s : String) : Option (String × String) :=
  (splitFirstOnAux c s.toList []).map (fun p => (⟨p.1⟩, ⟨p.2⟩))

/-- Numeric value of a list of decimal digits. -/
def digitsVal (cs : List Char) : Nat :=
  cs.foldl (fun n c => n * 10 + (c.toNat - '0'.toNat)) 0

/-- The digit part of unsigned-integer parsing: one or more ASCII
digits, nothing else, and the value must fit below `2^w`. -/
def parseDigitsBounded (w : Nat) (ds : List Char) : Option Nat :=
  if ds = [] then none
  else if ds.all Char.isDigit then
    if digitsVal ds < 2 ^ w then some (digitsVal ds) else none
  else none

/-- Rust `str::parse::<uN>()` as a `Nat` bounded by `2^w`:
an optional leading `+`, then one or more ASCII digits, no other
characters, and the value must fit in the width. -/
def parseUInt? (w : Nat) (s : String) : Option Nat :=
  match s.toList with
  | '+' :: r => parseDigitsBounded w r
  | r => parseDigitsBounded w r

/-- Rust `str::parse::<u64>()`. -/
def parseU64? (s : String) : Option Nat := parseUInt? 64 s

/-- Rust `str::parse::<u8>()`. -/
def parseU8? (s : String) : Option Nat := parseUInt? 8 s

/-- The digit part of `i64` parsing, after the sign has been
stripped. -/
def parseSignedDigits (neg : Bool) (ds : List Char) : Option Int :=
  if ds = [] then none
  else if ds.all Char.isDigit then
    if -(2 ^ 63) ≤ (if neg then -(digitsVal ds : Int) else (digitsVal ds : Int)) ∧
        (if neg then -(digitsVal ds : Int) else (digitsVal ds : Int)) ≤ 2 ^ 63 - 1 then
      some (if neg then -(digitsVal ds : Int) else (digitsVal ds : Int))
    else none
  else none

/-- Rust `str::parse::<i64>()`: optional sign, digits, signed 64-bit
bounds. -/
def parseI64? (s : String) : Option Int :=
  match s.toList with
  | '+' :: r => parseSignedDigits false r
  | '-' :: r => parseSignedDigits true r
  | r => parseSignedDigits false r

/-- Structurally recursive gcd (`gcdF fuel x y` computes `gcd x y`
whenever `x < fuel`); used so that rational normalisation reduces in
the kernel. -/
def gcdF : Nat → Nat → Nat → Nat
  | 0, _, y => y
  | fuel + 1, x, y => if x = 0 then y else gcdF fuel (y % x) x

/-- Exact rationals as normalised numerator/denominator pairs; all
operations below normalise, so derived structural equality coincides
with value equality on every value the parser produces. -/
structure Q where
  num : Int
  den : Nat
deriving DecidableEq, Repr

/-- Build the normalised rational `n / d`. -/
def mkQ (n : Int) (d : Nat) : Q :=
  let g := gcdF (n.natAbs + 1) n.natAbs d
  if g = 0 then ⟨0, 1⟩ else ⟨n / (g : Int), d / g⟩

/-- The rational value of a `Q`. -/
def Q.val (q : Q) : ℚ := (q.num : ℚ) / (q.den : ℚ)

/-- The value space of Rust `f64` as far as parsing is concerned:
finite values are kept exact as rationals (`Q`); rounding to binary
floating point is irrelevant to every claim proved here. -/
inductive FloatVal where
  | nan : FloatVal
  | inf (neg : Bool) : FloatVal
  | finite (q : Q) : FloatVal
deriving DecidableEq, Repr

/-- Negation of an (already normalised) rational. -/
def Q.neg (q : Q) : Q := ⟨-q.num, q.den⟩

/-- Multiply a rational by `10^e` for a signed exponent `e`. -/
def applyExp (q : Q) (e : Int) : Q :=
  if 0 ≤ e then mkQ (q.num * (10 : Int) ^ e.toNat) q.den
  else mkQ q.num (q.den * 10 ^ (-e).toNat)

/-- Parse the exponent suffix of a float literal: the remaining text must
be empty (exponent `0`) or `e`/`E`, an optional sign and one or more
digits. -/
def parseExpSuffix? : List Char → Option Int
  | [] => some 0
  | c :: r =>
    if c = 'e' ∨ c = 'E' then
      let (neg, ds) := match r with
        | '+' :: r2 => (false, r2)
        | '-' :: r2 => (true, r2)
        | r2 => (false, r2)
      if ds ≠ [] ∧ ds.all Char.isDigit then
        some (if neg then -(digitsVal ds : Int) else (digitsVal ds : Int))
      else none
    else none

/-- The rational `ip.fp` denoted by integer-part and fraction-part digit
lists: `(ip * 10^|fp| + fp) / 10^|fp|`. -/
def decimalVal (ip fp : List Char) : Q :=
  mkQ ((digitsVal ip : Int) * (10 : Int) ^ fp.length + (digitsVal fp : Int))
    (10 ^ fp.length)

/-- Parse the `Number` part of the Rust `f64` grammar
(`Digits '.'? Digits? Exp?` or `'.' Digits Exp?`). -/
def parseNumber? (cs : List Char) : Option Q :=
  let ip := cs.takeWhile Char.isDigit
  let rest := cs.dropWhile Char.isDigit
  match ip, rest with
  | [], '.' :: rest2 =>
    let fp := rest2.takeWhile Char.isDigit
    let rest3 := rest2.dropWhile Char.isDigit
    if fp = [] then none
    else (parseExpSuffix? rest3).map (fun e => applyExp (decimalVal [] fp) e)
  | [], _ => none
  | _, '.' :: rest2 =>
    let fp := rest2.takeWhile Char.isDigit
    let rest3 := rest2.dropWhile Char.isDigit
    (parseExpSuffix? rest3).map (fun e => applyExp (decimalVal ip fp) e)
  | _, rest1 =>
    (parseExpSuffix? rest1).map (fun e => applyExp (decimalVal ip []) e)

/-- Rust `str::parse::<f64>()`: optional sign, then case-insensitive
`inf`/`infinity`/`nan` or a decimal number with optional fraction and
exponent. -/
def parseF64? (s : String) : Option FloatVal :=
  match s.toList with
  | [] => none
  | cs =>
    let (neg, body) := match cs with
      | '+' :: r => (false, r)
      | '-' :: r => (true, r)
      | r => (false, r)
    let low := body.map Char.toLower
    if low = ['i', 'n', 'f'] ∨ low = ['i', 'n', 'f', 'i', 'n', 'i', 't', 'y'] then
      some (.inf neg)
    else if low = ['n', 'a', 'n'] then some .nan
    else (parseNumber? body).map (fun q => .finite (if neg then q.neg else q))

/-- `HashMap::insert`: replace the binding when the key is present,
append otherwise. -/
def insertAssoc {α : Type} (m : List (String × α)) (k : String) (v : α) :
    List (String × α) :=
  match m with
  | [] => [(k, v)]
  | (k', v') :: rest =>
    if k' = k then (k, v) :: rest else (k', v') :: insertAssoc rest k v

/-! ## error.rs -/

/-- `VcfError` (error.rs): the tagged error taxonomy. Payloads carried
by `#[from]` conversions (`Io`, `Utf8`, `Serialization`) are modelled as
their display strings. -/
inductive VcfError where
  | Io (msg : String)
  | InvalidFormat (msg : String)
  | MissingHeader
  | InvalidHeader (msg : String)
  | InvalidRecord (line : Nat) (message : String)
  | MissingField (line : Nat) (field : String)
  | InvalidPosition (line : Nat) (value : String)
  | InvalidQuality (line : Nat) (value : String)
  | UnknownChromosome (name : String)
  | Parse (msg : String)
  | Utf8 (msg : String)
  | Serialization (msg : String)
deriving DecidableEq, Repr

/-- `VcfError::is_recoverable` (error.rs lines 84–92). -/
def VcfError.is_recoverable : VcfError → Bool
  | .InvalidRecord _ _ => true
  | .InvalidPosition _ _ => true
  | .InvalidQuality _ _ => true
  | .MissingField _ _ => true
  | _ => false

/-- The `thiserror`-generated `Display` implementation of `VcfError`
(the `#[error("...")]` format strings). -/
def VcfError.toDisplay : VcfError → String
  | .Io m => "IO error: " ++ m
  | .InvalidFormat m => "Invalid VCF format: " ++ m
  | .MissingHeader => "Missing required header"
  | .InvalidHeader m => "Invalid header line: " ++ m
  | .InvalidRecord line message =>
    "Invalid record at line " ++ toString line ++ ": " ++ message
  | .MissingField line field =>
    "Missing required field \x27" ++ field ++ "\x27 at line " ++ toString line
  | .InvalidPosition line value =>
    "Invalid position \x27" ++ value ++ "\x27 at line " ++ toString line
  | .InvalidQuality line value =>
    "Invalid quality score \x27" ++ value ++ "\x27 at line " ++ toString line
  | .UnknownChromosome n => "Unknown chromosome: " ++ n
  | .Parse m => "Parse error: " ++ m
  | .Utf8 m => "UTF-8 encoding error: " ++ m
  | .Serialization m => "Serialization error: " ++ m

/-- `WarningCategory` (error.rs). -/
inductive WarningCategory where
  | MissingInfo
  | UnknownFilter
  | MalformedGenotype
  | DeprecatedFormat
  | Other
deriving DecidableEq, Repr

/-- `ParseWarning` (error.rs). -/
structure ParseWarning where
  line : Nat
  message : String
  category : WarningCategory
deriving DecidableEq, Repr

/-! ## types.rs -/

/-- `ContigInfo` (types.rs). -/
structure ContigInfo where
  id : String
  length : Option Nat
deriving DecidableEq, Repr

/-- `InfoDefinition` (types.rs). -/
structure InfoDefinition where
  id : String
  number : String
  field_type : String
  description : String
deriving DecidableEq, Repr

/-- `FormatDefinition` (types.rs). -/
structure FormatDefinition where
  id : String
  number : String
  field_type : String
  description : String
deriving DecidableEq, Repr

/-- `FilterDefinition` (types.rs). -/
structure FilterDefinition where
  id : String
  description : String
deriving DecidableEq, Repr

/-- `VcfHeader` (types.rs). -/
structure VcfHeader where
  file_format : String
  reference : Option String
  contigs : List ContigInfo
  info_fields : List InfoDefinition
  format_fields : List FormatDefinition
  filters : List FilterDefinition
  samples : List String
  meta_lines : List String
deriving DecidableEq, Repr

/-- `impl Default for VcfHeader` (types.rs lines 36–49). -/
def VcfHeader.default : VcfHeader :=
  { file_format := "4.2"
    reference := none
    contigs := []
    info_fields := []
    format_fields := []
    filters := []
    samples := []
    meta_lines := [] }

/-- `FilterStatus` (types.rs). -/
inductive FilterStatus where
  | Pass
  | Missing
  | Failed (filters : List String)
deriving DecidableEq, Repr

/-- `InfoValue` (types.rs); `f64` payloads are `FloatVal`. -/
inductive InfoValue where
  | Flag
  | Integer (i : Int)
  | Float (f : FloatVal)
  | String (s : String)
  | IntegerArray (is : List Int)
  | FloatArray (fs : List FloatVal)
  | StringArray (ss : List String)
deriving DecidableEq, Repr

/-- `Genotype` (types.rs): allele indices are `u8`, modelled as `Nat`
(the parser only ever stores values `< 256`). -/
structure Genotype where
  alleles : List (Option Nat)
  phased : Bool
deriving DecidableEq, Repr

/-- `Genotype::parse` (types.rs lines 207–227). -/
def Genotype.parse (s : String) : Option Genotype :=
  if s = "." ∨ s = "./." ∨ s = ".|." then none
  else
    let phased := containsChar '|' s
    let separator := if phased then '|' else '/'
    let alleles := (splitChar separator s).map
      (fun a => if a = "." then none else parseU8? a)
    some { alleles := alleles, phased := phased }

/-- `Genotype::is_hom_ref` (types.rs lines 230–232). -/
def Genotype.is_hom_ref (g : Genotype) : Bool :=
  g.alleles.all (fun a => a == some 0)

/-- `Genotype::is_het` (types.rs lines 235–238). -/
def Genotype.is_het (g : Genotype) : Bool :=
  let non_missing := g.alleles.filterMap id
  decide (2 ≤ non_missing.length) &&
    non_missing.any (fun a => a != non_missing.headD 0)

/-- `Genotype::is_hom_alt` (types.rs lines 241–244). -/
def Genotype.is_hom_alt (g : Genotype) : Bool :=
  let non_missing := g.alleles.filterMap id
  !non_missing.isEmpty &&
    non_missing.all (fun a => 0 < a && a == non_missing.headD 0)

/-- `SampleData` (types.rs). -/
structure SampleData where
  name : String
  genotype : Option Genotype
  fields : List (String × String)
deriving DecidableEq, Repr

/-- `VcfRecord` (types.rs). -/
structure VcfRecord where
  chrom : String
  pos : Nat
  id : Option String
  reference : String
  alternate : List String
  qual : Option FloatVal
  filter : FilterStatus
  info : List (String × InfoValue)
  samples : List SampleData
deriving DecidableEq, Repr

/-- `VcfRecord::is_snp` (types.rs lines 131–134). -/
def VcfRecord.is_snp (r : VcfRecord) : Bool :=
  r.reference.length == 1 &&
    r.alternate.all (fun a => a.length == 1 && a != "*")

/-- `VcfRecord::is_insertion` (types.rs lines 137–139). -/
def VcfRecord.is_insertion (r : VcfRecord) : Bool :=
  r.alternate.any (fun a => r.reference.length < a.length)

/-- `VcfRecord::is_deletion` (types.rs lines 142–144). -/
def VcfRecord.is_deletion (r : VcfRecord) : Bool :=
  r.alternate.any (fun a => a.length < r.reference.length)

/-- `VariantType` (types.rs). -/
inductive VariantType where
  | Snp
  | Insertion
  | Deletion
  | Complex
  | Other
deriving DecidableEq, Repr

/-- `VcfRecord::variant_type` (types.rs lines 147–159). -/
def VcfRecord.variant_type (r : VcfRecord) : VariantType :=
  if r.is_snp then .Snp
  else if r.is_insertion && r.is_deletion then .Complex
  else if r.is_insertion then .Insertion
  else if r.is_deletion then .Deletion
  else .Other

/-- `VcfStats` (types.rs). -/
structure VcfStats where
  total_records : Nat
  snps : Nat
  insertions : Nat
  deletions : Nat
  complex : Nat
  passed_filter : Nat
  failed_filter : Nat
  chromosomes : List String
deriving DecidableEq, Repr

/-- `VcfStats::new` / `Default` (types.rs). -/
def VcfStats.new : VcfStats := ⟨0, 0, 0, 0, 0, 0, 0, []⟩

/-- `VcfStats::update` (types.rs lines 275–295). -/
def VcfStats.update (stats : VcfStats) (record : VcfRecord) : VcfStats :=
  let stats := { stats with total_records := stats.total_records + 1 }
  let stats :=
    match record.variant_type with
    | .Snp => { stats with snps := stats.snps + 1 }
    | .Insertion => { stats with insertions := stats.insertions + 1 }
    | .Deletion => { stats with deletions := stats.deletions + 1 }
    | .Complex => { stats with complex := stats.complex + 1 }
    | .Other => stats
  let stats :=
    match record.filter with
    | .Pass => { stats with passed_filter := stats.passed_filter + 1 }
    | .Failed _ => { stats with failed_filter := stats.failed_filter + 1 }
    | .Missing => stats
  if stats.chromosomes.contains record.chrom then stats
  else { stats with chromosomes := stats.chromosomes ++ [record.chrom] }

/-- `calculate_stats` (parser.rs lines 547–553). -/
def calculate_stats (records : List VcfRecord) : VcfStats :=
  records.foldl VcfStats.update VcfStats.new

/-! ## parser.rs -/

/-- The configuration fields of `VcfParser` (parser.rs lines 12–30);
the mutable `warnings` and `current_line` state is threaded explicitly
through the parsing functions below. -/
structure VcfParser where
  parse_info : Bool
  parse_samples : Bool
  skip_invalid : Bool
  collect_warnings : Bool
deriving DecidableEq, Repr

/-- `VcfParser::new` (parser.rs lines 40–49). -/
def VcfParser.new : VcfParser :=
  { parse_info := true
    parse_samples := true
    skip_invalid := false
    collect_warnings := true }

/-- `VcfParser::fast` (parser.rs lines 52–61). -/
def VcfParser.fast : VcfParser :=
  { parse_info := false
    parse_samples := false
    skip_invalid := true
    collect_warnings := false }

/-- Auxiliary for `strStartsWith`: the first list is an initial
segment of the second. -/
def listStarts : List Char → List Char → Bool
  | [], _ => true
  | _ :: _, [] => false
  | c :: cs, d :: ds => c == d && listStarts cs ds

/-- Rust `str::starts_with(&str)`. -/
def strStartsWith (s p : String) : Bool :=
  listStarts p.toList s.toList

/-- The character-level state of `VcfParser::parse_structured_field`
(parser.rs lines 217–221). -/
structure SFState where
  fields : List (String × String)
  current_key : String
  current_value : String
  in_quotes : Bool
  in_value : Bool

/-- One step of the character loop of
`VcfParser::parse_structured_field` (parser.rs lines 223–247). -/
def sfStep (st : SFState) (ch : Char) : SFState :=
  if ch = '"' then { st with in_quotes := !st.in_quotes }
  else if ch = '=' ∧ st.in_quotes = false then { st with in_value := true }
  else if ch = ',' ∧ st.in_quotes = false then
    { fields :=
        if st.current_key ≠ "" then
          insertAssoc st.fields st.current_key st.current_value
        else st.fields
      current_key := ""
      current_value := ""
      in_quotes := st.in_quotes
      in_value := false }
  else if st.in_value then { st with current_value := st.current_value.push ch }
  else { st with current_key := st.current_key.push ch }

/-- `VcfParser::parse_structured_field` (parser.rs lines 211–255):
parses `<ID=XX,Number=1,...>` into a key→value mapping, or `none` when
the value is not bracket-delimited. -/
def parse_structured_field (value : String) : Option (List (String × String)) :=
  if value.toList.head? ≠ some '<' ∨ value.toList.getLast? ≠ some '>' then none
  else
    let inner : List Char := (value.toList.drop 1).dropLast
    let st := inner.foldl sfStep ⟨[], "", "", false, false⟩
    let fields :=
      if st.current_key ≠ "" then
        insertAssoc st.fields st.current_key st.current_value
      else st.fields
    some fields

/-- `VcfParser::parse_meta_line` (parser.rs lines 153–208): routes a
`##key=value` line into the header; always returns `Ok`. -/
def parse_meta_line (line : String) (header : VcfHeader) :
    Except VcfError VcfHeader :=
  let content : String := ⟨line.toList.drop 2⟩
  match splitFirstOn '=' content with
  | none => .ok header
  | some (key, value) =>
    if key = "fileformat" then .ok { header with file_format := value }
    else if key = "reference" then .ok { header with reference := some value }
    else if key = "contig" then
      .ok (match parse_structured_field value with
        | some contig =>
          { header with contigs := header.contigs ++
              [{ id := (contig.lookup "ID").getD ""
                 length := (contig.lookup "length").bind parseU64? }] }
        | none => header)
    else if key = "INFO" then
      .ok (match parse_structured_field value with
        | some info =>
          { header with info_fields := header.info_fields ++
              [{ id := (info.lookup "ID").getD ""
                 number := (info.lookup "Number").getD ""
                 field_type := (info.lookup "Type").getD ""
                 description := (info.lookup "Description").getD "" }] }
        | none => header)
    else if key = "FORMAT" then
      .ok (match parse_structured_field value with
        | some fmt =>
          { header with format_fields := header.format_fields ++
              [{ id := (fmt.lookup "ID").getD ""
                 number := (fmt.lookup "Number").getD ""
                 field_type := (fmt.lookup "Type").getD ""
                 description := (fmt.lookup "Description").getD "" }] }
        | none => header)
    else if key = "FILTER" then
      .ok (match parse_structured_field value with
        | some filter =>
          { header with filters := header.filters ++
              [{ id := (filter.lookup "ID").getD ""
                 description := (filter.lookup "Description").getD "" }] }
        | none => header)
    else .ok header

/-- `VcfParser::parse_header_line` (parser.rs lines 258–273). -/
def parse_header_line (line : String) (header : VcfHeader) :
    Except VcfError VcfHeader :=
  let fields := splitChar '\t' line
  if fields.length < 8 then
    .error (.InvalidHeader "Header line must have at least 8 columns")
  else if 9 < fields.length then .ok { header with samples := fields.drop 9 }
  else .ok header

/-- `VcfParser::parse_header` (parser.rs lines 119–150): consumes lines
until the `#CHROM` line, counting lines; returns the header, the
unconsumed lines and the updated line counter. -/
def parse_header (lines : List String) (n : Nat) (header : VcfHeader) :
    Except VcfError (VcfHeader × List String × Nat) :=
  match lines with
  | [] => .error .MissingHeader
  | line :: rest =>
    if strStartsWith line "##" then
      let header := { header with meta_lines := header.meta_lines ++ [line] }
      match parse_meta_line line header with
      | .ok header' => parse_header rest (n + 1) header'
      | .error e => .error e
    else if strStartsWith line "#CHROM" then
      match parse_header_line line header with
      | .ok header' => .ok (header', rest, n + 1)
      | .error e => .error e
    else if line ≠ "" then .error .MissingHeader
    else parse_header rest (n + 1) header

/-- `VcfParser::parse_filter` (parser.rs lines 355–361). -/
def parse_filter (value : String) : FilterStatus :=
  if value = "." then .Missing
  else if value = "PASS" then .Pass
  else .Failed (splitChar ';' value)

/-- `Iterator::collect::<Option<Vec<_>>>`. -/
def allSome {α : Type} : List (Option α) → Option (List α)
  | [] => some []
  | none :: _ => none
  | some x :: rest => (allSome rest).map (x :: ·)

/-- `VcfParser::parse_info_value` (parser.rs lines 386–422): value-driven
type inference with precedence int → float → string (element-wise for
comma-separated arrays). -/
def parse_info_value (value : String) : InfoValue :=
  if containsChar ',' value then
    let parts := splitChar ',' value
    match allSome (parts.map parseI64?) with
    | some ints => .IntegerArray ints
    | none =>
      match allSome (parts.map parseF64?) with
      | some floats => .FloatArray floats
      | none => .StringArray parts
  else
    match parseI64? value with
    | some i => .Integer i
    | none =>
      match parseF64? value with
      | some f => .Float f
      | none => .String value

/-- `VcfParser::parse_info_field` (parser.rs lines 364–383). -/
def parse_info_field (value : String) : List (String × InfoValue) :=
  if value = "." then []
  else
    (splitChar ';' value).foldl
      (fun info item =>
        match splitFirstOn '=' item with
        | some (key, v) => insertAssoc info key (parse_info_value v)
        | none => insertAssoc info item .Flag)
      []

/-- The inner loop of `VcfParser::parse_samples` (parser.rs lines
446–454): zip the values of one sample against the FORMAT keys. -/
def buildSample (format_keys : List String) (values : List String)
    (name : String) : SampleData :=
  format_keys.enum.foldl
    (fun sd jk =>
      match values.get? jk.1 with
      | some v =>
        if jk.2 = "GT" then { sd with genotype := Genotype.parse v }
        else { sd with fields := insertAssoc sd.fields jk.2 v }
      | none => sd)
    { name := name, genotype := none, fields := [] }

/-- `VcfParser::parse_samples` (parser.rs lines 425–460): the first
column is the colon-separated FORMAT key list, each later column the
colon-separated values of one sample. -/
def parse_samples (fields : List String) (sample_names : List String) :
    List SampleData :=
  match fields with
  | [] => []
  | fmt :: rest =>
    let format_keys := splitChar ':' fmt
    rest.enum.map (fun if_ =>
      buildSample format_keys (splitChar ':' if_.2)
        ((sample_names.get? if_.1).getD ("SAMPLE_" ++ toString if_.1)))

/-- `VcfParser::parse_record` (parser.rs lines 276–352): parse one data
line, given the already-parsed header and the current line number.
The Rust local `fields` is inlined as `splitChar '\t' line` (the
`memchr`-based tab split of lines 278–286). -/
def parse_record (cfg : VcfParser) (header : VcfHeader) (current_line : Nat)
    (line : String) : Except VcfError VcfRecord :=
  if (splitChar '\t' line).length < 8 then
    .error (.InvalidRecord current_line
      ("Expected at least 8 fields, found " ++
        toString (splitChar '\t' line).length))
  else
    match parseU64? ((splitChar '\t' line).getD 1 "") with
    | none =>
      .error (.InvalidPosition current_line ((splitChar '\t' line).getD 1 ""))
    | some pos =>
      .ok { chrom := (splitChar '\t' line).getD 0 ""
            pos := pos
            id := if (splitChar '\t' line).getD 2 "" = "." then none
              else some ((splitChar '\t' line).getD 2 "")
            reference := (splitChar '\t' line).getD 3 ""
            alternate := if (splitChar '\t' line).getD 4 "" = "." then []
              else splitChar ',' ((splitChar '\t' line).getD 4 "")
            qual := if (splitChar '\t' line).getD 5 "" = "." then none
              else parseF64? ((splitChar '\t' line).getD 5 "")
            filter := parse_filter ((splitChar '\t' line).getD 6 "")
            info := if cfg.parse_info then
                parse_info_field ((splitChar '\t' line).getD 7 "")
              else []
            samples := if cfg.parse_samples ∧ 9 < (splitChar '\t' line).length then
                parse_samples ((splitChar '\t' line).drop 8) header.samples
              else [] }

/-- The record loop of `VcfParser::parse` (parser.rs lines 87–108):
empty lines are skipped (but counted); a failing line aborts in strict
mode and is skipped — with a warning when `collect_warnings` is set —
in tolerant mode when the error is recoverable. -/
def parse_records (cfg : VcfParser) (header : VcfHeader) :
    List String → Nat → Except VcfError (List VcfRecord) × List ParseWarning
  | [], _ => (.ok [], [])
  | line :: rest, n =>
    if line = "" then parse_records cfg header rest (n + 1)
    else
      match parse_record cfg header (n + 1) line with
      | .ok record =>
        let (res, ws) := parse_records cfg header rest (n + 1)
        (res.map (record :: ·), ws)
      | .error e =>
        if cfg.skip_invalid ∧ e.is_recoverable then
          let (res, ws) := parse_records cfg header rest (n + 1)
          (res,
            (if cfg.collect_warnings then
              [{ line := n + 1, message := e.toDisplay,
                 category := .Other }]
            else []) ++ ws)
        else (.error e, [])

/-- `VcfParser::parse` (parser.rs lines 74–111), over a file given as
its list of lines; returns the result together with the warnings
collected. -/
def VcfParser.parse (cfg : VcfParser) (lines : List String) :
    Except VcfError (VcfHeader × List VcfRecord) × List ParseWarning :=
  match parse_header lines 0 VcfHeader.default with
  | .error e => (.error e, [])
  | .ok (header, rest, n) =>
    let (res, ws) := parse_records cfg header rest n
    (res.map (fun records => (header, records)), ws)

/-! ## Helper lemmas -/

/-- Decidable equality for `Except`, so that concrete parser outcomes
can be checked by `decide`. -/
def exceptDecEq {ε α : Type} [DecidableEq ε] [DecidableEq α] :
    DecidableEq (Except ε α)
  | .error a, .error b =>
    if h : a = b then isTrue (congrArg Except.error h)
    else isFalse (fun hh => h (Except.error.inj hh))
  | .error _, .ok _ => isFalse (fun hh => Except.noConfusion hh)
  | .ok _, .error _ => isFalse (fun hh => Except.noConfusion hh)
  | .ok a, .ok b =>
    if h : a = b then isTrue (congrArg Except.ok h)
    else isFalse (fun hh => h (Except.ok.inj hh))

instance {ε α : Type} [DecidableEq ε] [DecidableEq α] :
    DecidableEq (Except ε α) := exceptDecEq

/-- The exact record produced by `parse_record` when the two guards
(field count, position parse) pass. -/
lemma parse_record_eq (cfg : VcfParser) (hdr : VcfHeader) (n : Nat) (l : String)
    (pos : Nat) (h8 : ¬ (splitChar '\t' l).length < 8)
    (hp : parseU64? ((splitChar '\t' l).getD 1 "") = some pos) :
    parse_record cfg hdr n l = .ok
      { chrom := (splitChar '\t' l).getD 0 ""
        pos := pos
        id := if (splitChar '\t' l).getD 2 "" = "." then none
          else some ((splitChar '\t' l).getD 2 "")
        reference := (splitChar '\t' l).getD 3 ""
        alternate := if (splitChar '\t' l).getD 4 "" = "." then []
          else splitChar ',' ((splitChar '\t' l).getD 4 "")
        qual := if (splitChar '\t' l).getD 5 "" = "." then none
          else parseF64? ((splitChar '\t' l).getD 5 "")
        filter := parse_filter ((splitChar '\t' l).getD 6 "")
        info := if cfg.parse_info then
            parse_info_field ((splitChar '\t' l).getD 7 "")
          else []
        samples := if cfg.parse_samples ∧ 9 < (splitChar '\t' l).length then
            parse_samples ((splitChar '\t' l).drop 8) hdr.samples
          else [] } := by
  unfold parse_record
  rw [if_neg h8, hp]

/-- Inversion: a successful `parse_record` implies both guards passed,
and the position of the record is the parsed `u64` of field 1. -/
lemma parse_record_ok_inv {cfg : VcfParser} {hdr : VcfHeader} {n : Nat}
    {l : String} {rec : VcfRecord}
    (h : parse_record cfg hdr n l = .ok rec) :
    ¬ (splitChar '\t' l).length < 8 ∧
      parseU64? ((splitChar '\t' l).getD 1 "") = some rec.pos := by
  unfold parse_record at h
  split at h
  · exact absurd h (by simp)
  · rename_i h8
    split at h
    · exact absurd h (by simp)
    · rename_i pos hp
      refine ⟨h8, ?_⟩
      injection h with h'
      rw [← h']
      exact hp

/-- A failing `parse_record` fails on the field count or on the
position: no other error kind is ever returned. -/
lemma parse_record_error_inv {cfg : VcfParser} {hdr : VcfHeader} {n : Nat}
    {l : String} {e : VcfError}
    (h : parse_record cfg hdr n l = .error e) :
    (∃ a b, e = .InvalidRecord a b) ∨ (∃ a b, e = .InvalidPosition a b) := by
  unfold parse_record at h
  split at h
  · injection h with h'
    exact .inl ⟨_, _, h'.symm⟩
  · split at h
    · injection h with h'
      exact .inr ⟨_, _, h'.symm⟩
    · exact absurd h (by simp)

/-- Any `parse_record` error is recoverable. -/
lemma parse_record_error_recoverable {cfg : VcfParser} {hdr : VcfHeader}
    {n : Nat} {l : String} {e : VcfError}
    (h : parse_record cfg hdr n l = .error e) : e.is_recoverable = true := by
  rcases parse_record_error_inv h with ⟨a, b, rfl⟩ | ⟨a, b, rfl⟩ <;> rfl

/-- The digit parser respects its bound. -/
lemma parseDigitsBounded_lt {w : Nat} {ds : List Char} {n : Nat}
    (h : parseDigitsBounded w ds = some n) : n < 2 ^ w := by
  unfold parseDigitsBounded at h
  split at h
  · exact absurd h (by simp)
  · split at h
    · split at h
      · injection h with h'
        omega
      · exact absurd h (by simp)
    · exact absurd h (by simp)

/-- A parsed `u64` fits in 64 bits. -/
lemma parseU64?_lt {s : String} {n : Nat} (h : parseU64? s = some n) :
    n < 2 ^ 64 := by
  unfold parseU64? parseUInt? at h
  split at h <;> exact parseDigitsBounded_lt h

/-! ## Claim theorems -/

/-- C2: for every data line with at least 8 fields and a valid POS whose
QUAL token is neither "." nor parsable as a float, `parse_record` still
returns a successfully parsed record whose quality field is absent; the
unparsable quality never aborts construction of that record, in any
parser configuration (so in both strict and tolerant mode). -/
theorem qual_unparsable_degrades_to_none (cfg : VcfParser) (hdr : VcfHeader)
    (n : Nat) (l : String)
    (h8 : 8 ≤ (splitChar '\t' l).length)
    (hpos : (parseU64? ((splitChar '\t' l).getD 1 "")).isSome = true)
    (hq1 : (splitChar '\t' l).getD 5 "" ≠ ".")
    (hq2 : parseF64? ((splitChar '\t' l).getD 5 "") = none) :
    ∃ r, parse_record cfg hdr n l = .ok r ∧ r.qual = none := by
  obtain ⟨pos, hp⟩ := Option.isSome_iff_exists.mp hpos
  refine ⟨_, parse_record_eq cfg hdr n l pos (by omega) hp, ?_⟩
  simp only []
  rw [if_neg hq1]
  exact hq2

/-- Witness for C2 at a concrete line whose QUAL token is `xx`. -/
theorem qual_unparsable_degrades_to_none_witness :
    (8 ≤ (splitChar '\t' "chr1\t100\t.\tA\tG\txx\tPASS\tDP=50").length ∧
      (parseU64? ((splitChar '\t' "chr1\t100\t.\tA\tG\txx\tPASS\tDP=50").getD 1 "")).isSome = true ∧
      (splitChar '\t' "chr1\t100\t.\tA\tG\txx\tPASS\tDP=50").getD 5 "" ≠ "." ∧
      parseF64? ((splitChar '\t' "chr1\t100\t.\tA\tG\txx\tPASS\tDP=50").getD 5 "") = none) ∧
    (∃ r, parse_record VcfParser.new VcfHeader.default 3
        "chr1\t100\t.\tA\tG\txx\tPASS\tDP=50" = .ok r ∧ r.qual = none) :=
  ⟨⟨by decide, by decide, by decide, by decide⟩,
    qual_unparsable_degrades_to_none VcfParser.new VcfHeader.default 3
      "chr1\t100\t.\tA\tG\txx\tPASS\tDP=50"
      (by decide) (by decide) (by decide) (by decide)⟩

/-- C5 counterexample: the line `chr1 0 . A G . PASS DP=50` has POS
token `0`, which parses as an unsigned integer denoting 0, and the
record parser DOES yield a record (with `pos = 0`): the claimed `pos ≥ 1`
rejection does not exist in the code. -/
theorem pos_zero_yields_record :
    parse_record VcfParser.new VcfHeader.default 1
      "chr1\t0\t.\tA\tG\t.\tPASS\tDP=50" = .ok
      { chrom := "chr1", pos := 0, id := none, reference := "A"
        alternate := ["G"], qual := none, filter := .Pass
        info := [("DP", .Integer 50)], samples := [] } := by
  decide

/-- C5 (amended): every record produced by the record parser has a
position that is the `u64` parse of the POS token (hence an unsigned
integer `< 2^64`), and conversely any line with at least 8 fields whose
POS token parses as a `u64` — the value 0 included — yields a record
with exactly that position; no `pos ≥ 1` check is performed. -/
theorem record_pos_is_parsed_u64 (cfg : VcfParser) (hdr : VcfHeader)
    (n : Nat) (l : String) :
    (∀ rec, parse_record cfg hdr n l = .ok rec →
      parseU64? ((splitChar '\t' l).getD 1 "") = some rec.pos ∧
        rec.pos < 2 ^ 64) ∧
    (∀ v, 8 ≤ (splitChar '\t' l).length →
      parseU64? ((splitChar '\t' l).getD 1 "") = some v →
      ∃ rec, parse_record cfg hdr n l = .ok rec ∧ rec.pos = v) := by
  constructor
  · intro rec h
    obtain ⟨-, hp⟩ := parse_record_ok_inv h
    exact ⟨hp, parseU64?_lt hp⟩
  · intro v h8 hp
    exact ⟨_, parse_record_eq cfg hdr n l v (by omega) hp, rfl⟩

/-- Witness for the amended C5 theorem at the POS-token-`0` line. -/
theorem record_pos_is_parsed_u64_witness :
    (∀ rec, parse_record VcfParser.new VcfHeader.default 1
        "chr1\t0\t.\tA\tG\t.\tPASS\tDP=50" = .ok rec →
      parseU64? ((splitChar '\t' "chr1\t0\t.\tA\tG\t.\tPASS\tDP=50").getD 1 "") =
          some rec.pos ∧ rec.pos < 2 ^ 64) ∧
    (∀ v, 8 ≤ (splitChar '\t' "chr1\t0\t.\tA\tG\t.\tPASS\tDP=50").length →
      parseU64? ((splitChar '\t' "chr1\t0\t.\tA\tG\t.\tPASS\tDP=50").getD 1 "") = some v →
      ∃ rec, parse_record VcfParser.new VcfHeader.default 1
          "chr1\t0\t.\tA\tG\t.\tPASS\tDP=50" = .ok rec ∧ rec.pos = v) :=
  record_pos_is_parsed_u64 VcfParser.new VcfHeader.default 1
    "chr1\t0\t.\tA\tG\t.\tPASS\tDP=50"

/-- C7 counterexample: the genotype parsed from `0/.` has alleles
`[some 0, none]` — every present allele index is 0 — yet `is_hom_ref`
returns `false`, because the code requires every allele to be literally
`Some(0)`, missing alleles included. -/
theorem hom_ref_missing_allele_cex :
    Genotype.parse "0/." = some ⟨[some 0, none], false⟩ ∧
    (∀ a ∈ [some 0, (none : Option Nat)], ∀ i, a = some i → i = 0) ∧
    Genotype.is_hom_ref ⟨[some 0, none], false⟩ = false := by
  refine ⟨by decide, ?_, by decide⟩
  decide

/-- C7 (amended): `is_hom_ref` returns true iff every allele is present
and equal to 0; a genotype containing any missing allele (such as the
one parsed from `0/.`) is not homozygous-reference. -/
theorem is_hom_ref_iff (g : Genotype) :
    g.is_hom_ref = true ↔ ∀ a ∈ g.alleles, a = some 0 := by
  simp [Genotype.is_hom_ref, List.all_eq_true]

/-- C8: a column-header line with at least 8 tab-separated columns
parses successfully with a sample list equal to the columns after the
9th (length = column count − 9, clamped at 0, so empty for exactly 8 or
9 columns), and a line with fewer than 8 columns fails with an
invalid-header error. -/
theorem header_line_sample_count (line : String) :
    ((splitChar '\t' line).length < 8 →
      parse_header_line line VcfHeader.default =
        .error (.InvalidHeader "Header line must have at least 8 columns")) ∧
    (8 ≤ (splitChar '\t' line).length →
      ∃ h, parse_header_line line VcfHeader.default = .ok h ∧
        h.samples = (splitChar '\t' line).drop 9 ∧
        h.samples.length = (splitChar '\t' line).length - 9) := by
  constructor
  · intro h8
    unfold parse_header_line
    rw [if_pos h8]
  · intro h8
    unfold parse_header_line
    rw [if_neg (by omega)]
    by_cases h9 : 9 < (splitChar '\t' line).length
    · rw [if_pos h9]
      exact ⟨_, rfl, rfl, List.length_drop 9 _⟩
    · rw [if_neg h9]
      refine ⟨_, rfl, ?_, ?_⟩
      · show ([] : List String) = _
        rw [List.drop_eq_nil_of_le (by omega)]
      · show (0 : Nat) = _
        omega

/-- Witness for C8: a 10-column header line (1 sample) and a 3-column
one (invalid). -/
theorem header_line_sample_count_witness :
    (8 ≤ (splitChar '\t' "#CHROM\tPOS\tID\tREF\tALT\tQUAL\tFILTER\tINFO\tFORMAT\tS1").length ∧
      (∃ h, parse_header_line "#CHROM\tPOS\tID\tREF\tALT\tQUAL\tFILTER\tINFO\tFORMAT\tS1"
          VcfHeader.default = .ok h ∧
        h.samples = (splitChar '\t' "#CHROM\tPOS\tID\tREF\tALT\tQUAL\tFILTER\tINFO\tFORMAT\tS1").drop 9 ∧
        h.samples.length =
          (splitChar '\t' "#CHROM\tPOS\tID\tREF\tALT\tQUAL\tFILTER\tINFO\tFORMAT\tS1").length - 9)) ∧
    ((splitChar '\t' "#CHROM\tPOS\tID").length < 8 ∧
      parse_header_line "#CHROM\tPOS\tID" VcfHeader.default =
        .error (.InvalidHeader "Header line must have at least 8 columns")) :=
  ⟨⟨by decide,
    (header_line_sample_count "#CHROM\tPOS\tID\tREF\tALT\tQUAL\tFILTER\tINFO\tFORMAT\tS1").2
      (by decide)⟩,
   ⟨by decide, (header_line_sample_count "#CHROM\tPOS\tID").1 (by decide)⟩⟩

/-- C9: `Genotype::parse` returns `some` genotype for every token other
than exactly ".", "./." or ".|." — each sub-token that is "." or not an
unsigned 8-bit integer (an index above 255, or garbage text) decodes to
a missing allele; the `u8` parses below pin that rejection behaviour. -/
theorem genotype_parse_total (s : String)
    (h1 : s ≠ ".") (h2 : s ≠ "./.") (h3 : s ≠ ".|.") :
    Genotype.parse s = some
      { alleles := (splitChar (if containsChar '|' s then '|' else '/') s).map
          (fun a => if a = "." then none else parseU8? a)
        phased := containsChar '|' s } ∧
    parseU8? "256" = none ∧ parseU8? "999" = none ∧
    parseU8? "abc" = none ∧ parseU8? "1x" = none ∧
    parseU8? "0" = some 0 ∧ parseU8? "255" = some 255 := by
  refine ⟨?_, by decide, by decide, by decide, by decide, by decide, by decide⟩
  unfold Genotype.parse
  rw [if_neg (by simp [h1, h2, h3])]

/-- Witness for C9 at the token `0/256`: the over-wide index 256 decodes
to a missing allele and parsing still succeeds. -/
theorem genotype_parse_total_witness :
    ("0/256" ≠ "." ∧ "0/256" ≠ "./." ∧ "0/256" ≠ ".|.") ∧
    (Genotype.parse "0/256" = some
      { alleles := (splitChar (if containsChar '|' "0/256" then '|' else '/') "0/256").map
          (fun a => if a = "." then none else parseU8? a)
        phased := containsChar '|' "0/256" } ∧
      parseU8? "256" = none ∧ parseU8? "999" = none ∧
      parseU8? "abc" = none ∧ parseU8? "1x" = none ∧
      parseU8? "0" = some 0 ∧ parseU8? "255" = some 255) :=
  ⟨⟨by decide, by decide, by decide⟩,
    genotype_parse_total "0/256" (by decide) (by decide) (by decide)⟩

/-- C10: a record whose reference allele has length 1 and whose
alternate list is empty (as produced from an ALT token of ".") is
classified `Snp` — the "every alternate" condition holds vacuously —
and the stats aggregator counts it in `snps`; the final conjunct ties
the empty alternate list to the "." ALT token of a parsed line. -/
theorem missing_alt_is_snp (rec : VcfRecord) (stats : VcfStats)
    (h1 : rec.reference.length = 1) (h2 : rec.alternate = []) :
    rec.variant_type = .Snp ∧
    (stats.update rec).snps = stats.snps + 1 ∧
    (∀ cfg hdr n l r, parse_record cfg hdr n l = .ok r →
      (splitChar '\t' l).getD 4 "" = "." → r.alternate = []) := by
  have hsnp : rec.is_snp = true := by
    simp [VcfRecord.is_snp, h1, h2]
  have hvt : rec.variant_type = .Snp := by
    simp [VcfRecord.variant_type, hsnp]
  refine ⟨hvt, ?_, ?_⟩
  · unfold VcfStats.update
    rw [hvt]
    cases rec.filter <;> dsimp only [] <;> split <;> rfl
  · intro cfg hdr n l r h halt
    obtain ⟨h8, hp⟩ := parse_record_ok_inv h
    rw [parse_record_eq cfg hdr n l r.pos h8 hp] at h
    injection h with h'
    rw [← h']
    simp only []
    rw [if_pos halt]

/-- C4: INFO value classification follows the precedence int → float →
string for comma-free values and all-int → all-float → string-array for
comma-containing values; a bare key is a Flag; the six specification
examples hold (float values are exact rationals: `mkQ 5 10` is 0.5,
`mkQ 1 10` is 0.1, `mkQ 2 10` is 0.2, as the `Q.val` conjuncts state);
and classification never consults the header: the INFO component of a
parsed record is identical for any two headers. -/
theorem info_inference_precedence (v : String) :
    (containsChar ',' v = false →
      parse_info_value v =
        match parseI64? v with
        | some i => .Integer i
        | none =>
          match parseF64? v with
          | some f => .Float f
          | none => .String v) ∧
    (containsChar ',' v = true →
      parse_info_value v =
        match allSome ((splitChar ',' v).map parseI64?) with
        | some ints => .IntegerArray ints
        | none =>
          match allSome ((splitChar ',' v).map parseF64?) with
          | some floats => .FloatArray floats
          | none => .StringArray (splitChar ',' v)) ∧
    parse_info_field "DP=50" = [("DP", .Integer 50)] ∧
    parse_info_field "AF=0.5" = [("AF", .Float (.finite (mkQ 5 10)))] ∧
    parse_info_field "AA=N" = [("AA", .String "N")] ∧
    parse_info_field "AC=1,2" = [("AC", .IntegerArray [1, 2])] ∧
    parse_info_field "AF=0.1,0.2" =
      [("AF", .FloatArray [.finite (mkQ 1 10), .finite (mkQ 2 10)])] ∧
    parse_info_field "DB" = [("DB", .Flag)] ∧
    (mkQ 5 10).val = 1 / 2 ∧ (mkQ 1 10).val = 1 / 10 ∧ (mkQ 2 10).val = 1 / 5 ∧
    (∀ cfg hdr hdr2 n l,
      (parse_record cfg hdr n l).toOption.map VcfRecord.info =
        (parse_record cfg hdr2 n l).toOption.map VcfRecord.info) := by
  refine ⟨?_, ?_, by decide, by decide, by decide, by decide, by decide, by decide,
    ?_, ?_, ?_, ?_⟩
  · intro h
    simp [parse_info_value, h]
  · intro h
    simp [parse_info_value, h]
  · rw [show mkQ 5 10 = ⟨1, 2⟩ from by decide]
    norm_num [Q.val]
  · rw [show mkQ 1 10 = ⟨1, 10⟩ from by decide]
    norm_num [Q.val]
  · rw [show mkQ 2 10 = ⟨1, 5⟩ from by decide]
    norm_num [Q.val]
  · intro cfg hdr hdr2 n l
    unfold parse_record
    split
    · rfl
    · split <;> rfl

/-- Witness for C4 at the comma-free token `0.5` and the
comma-containing token `1,2`. -/
theorem info_inference_precedence_witness :
    (containsChar ',' "0.5" = false ∧
      parse_info_value "0.5" =
        match parseI64? "0.5" with
        | some i => .Integer i
        | none =>
          match parseF64? "0.5" with
          | some f => .Float f
          | none => .String "0.5") ∧
    (containsChar ',' "1,2" = true ∧
      parse_info_value "1,2" =
        match allSome ((splitChar ',' "1,2").map parseI64?) with
        | some ints => .IntegerArray ints
        | none =>
          match allSome ((splitChar ',' "1,2").map parseF64?) with
          | some floats => .FloatArray floats
          | none => .StringArray (splitChar ',' "1,2")) :=
  ⟨⟨by decide, (info_inference_precedence "0.5").1 (by decide)⟩,
   ⟨by decide, (info_inference_precedence "1,2").2.1 (by decide)⟩⟩

/-- C6 counterexample: the metadata line `##INFO=foo` has a structured
kind (INFO) but a value that is not bracket-delimited, yet
`parse_meta_line` returns `Ok` with the header unchanged — and a whole
parse containing that line succeeds with no INFO definition recorded —
instead of failing with a fatal structurally-invalid-format error. -/
theorem unbracketed_structured_value_ignored_cex :
    parse_meta_line "##INFO=foo" VcfHeader.default = .ok VcfHeader.default ∧
    VcfParser.parse VcfParser.new
      ["##fileformat=VCFv4.2",
       "##INFO=foo",
       "#CHROM\tPOS\tID\tREF\tALT\tQUAL\tFILTER\tINFO",
       "chr1\t100\t.\tA\tG\t.\tPASS\t."] =
      (.ok ({ VcfHeader.default with
                file_format := "VCFv4.2"
                meta_lines := ["##fileformat=VCFv4.2", "##INFO=foo"] },
            [{ chrom := "chr1", pos := 100, id := none, reference := "A"
               alternate := ["G"], qual := none, filter := .Pass
               info := [], samples := [] }]),
       []) := by
  constructor
  · decide
  · decide

/-- C6 (amended): for every metadata line of a structured kind (contig,
INFO, FORMAT, FILTER) whose value is not bracket-delimited, the
structured-field parser returns `none` and the meta-line parser silently
ignores the value — no definition is added, no error is raised, and
parsing continues. -/
theorem unbracketed_structured_value_ignored (value : String)
    (h : value.toList.head? ≠ some '<' ∨ value.toList.getLast? ≠ some '>') :
    parse_structured_field value = none ∧
    (∀ header, parse_meta_line ("##contig=" ++ value) header = .ok header) ∧
    (∀ header, parse_meta_line ("##INFO=" ++ value) header = .ok header) ∧
    (∀ header, parse_meta_line ("##FORMAT=" ++ value) header = .ok header) ∧
    (∀ header, parse_meta_line ("##FILTER=" ++ value) header = .ok header) := by
  have hsf : parse_structured_field value = none := by
    unfold parse_structured_field
    rw [if_pos h]
  refine ⟨hsf, fun header => ?_, fun header => ?_, fun header => ?_,
    fun header => ?_⟩
  · have hsplit : splitFirstOn '='
        (⟨(("##contig=" ++ value : String)).toList.drop 2⟩ : String) =
        some ("contig", value) := rfl
    simp only [parse_meta_line, hsplit, hsf]
    rfl
  · have hsplit : splitFirstOn '='
        (⟨(("##INFO=" ++ value : String)).toList.drop 2⟩ : String) =
        some ("INFO", value) := rfl
    simp only [parse_meta_line, hsplit, hsf]
    rfl
  · have hsplit : splitFirstOn '='
        (⟨(("##FORMAT=" ++ value : String)).toList.drop 2⟩ : String) =
        some ("FORMAT", value) := rfl
    simp only [parse_meta_line, hsplit, hsf]
    rfl
  · have hsplit : splitFirstOn '='
        (⟨(("##FILTER=" ++ value : String)).toList.drop 2⟩ : String) =
        some ("FILTER", value) := rfl
    simp only [parse_meta_line, hsplit, hsf]
    rfl

/-- Witness for the amended C6 theorem at the unbracketed value `foo`. -/
theorem unbracketed_structured_value_ignored_witness :
    ("foo".toList.head? ≠ some '<' ∨ "foo".toList.getLast? ≠ some '>') ∧
    (parse_structured_field "foo" = none ∧
      (∀ header, parse_meta_line ("##contig=" ++ "foo") header = .ok header) ∧
      (∀ header, parse_meta_line ("##INFO=" ++ "foo") header = .ok header) ∧
      (∀ header, parse_meta_line ("##FORMAT=" ++ "foo") header = .ok header) ∧
      (∀ header, parse_meta_line ("##FILTER=" ++ "foo") header = .ok header)) :=
  ⟨by decide, unbracketed_structured_value_ignored "foo" (by decide)⟩

/-- Structural validity of a data line: at least 8 tab-separated fields
and a POS token that parses as `u64` — by `parse_record_eq` /
`parse_record_ok_inv` this is exactly the condition under which
`parse_record` succeeds (for every configuration, header and line
number). -/
def recOk (l : String) : Prop :=
  8 ≤ (splitChar '\t' l).length ∧
    (parseU64? ((splitChar '\t' l).getD 1 "")).isSome = true

instance (l : String) : Decidable (recOk l) := by
  unfold recOk
  infer_instance

/-- `recOk` is what successful record parsing means. -/
lemma recOk_iff_ok (cfg : VcfParser) (hdr : VcfHeader) (n : Nat) (l : String) :
    recOk l ↔ ∃ r, parse_record cfg hdr n l = .ok r := by
  constructor
  · rintro ⟨h8, hp⟩
    obtain ⟨pos, hpos⟩ := Option.isSome_iff_exists.mp hp
    exact ⟨_, parse_record_eq cfg hdr n l pos (by omega) hpos⟩
  · rintro ⟨r, hr⟩
    obtain ⟨h8, hp⟩ := parse_record_ok_inv hr
    exact ⟨by omega, by rw [hp]; rfl⟩

/-- The record loop on a list of valid, non-empty lines: every line
yields a record and no warning is emitted. -/
lemma parse_records_all_ok (cfg : VcfParser) (hdr : VcfHeader) :
    ∀ (ls : List String) (n : Nat),
      (∀ l ∈ ls, l ≠ "" ∧ recOk l) →
      ∃ recs, parse_records cfg hdr ls n = (.ok recs, []) ∧
        recs.length = ls.length := by
  intro ls
  induction ls with
  | nil => exact fun n _ => ⟨[], rfl, rfl⟩
  | cons l rest ih =>
    intro n hv
    obtain ⟨hne, hok⟩ := hv l (by simp)
    obtain ⟨r, hr⟩ := (recOk_iff_ok cfg hdr (n + 1) l).mp hok
    obtain ⟨recs, hrec, hlen⟩ := ih (n + 1) (fun x hx => hv x (by simp [hx]))
    refine ⟨r :: recs, ?_, ?_⟩
    · unfold parse_records
      rw [if_neg hne, hr, hrec]
      rfl
    · simp [hlen]

/-- A line with fewer than 8 tab-separated fields produces the
invalid-record error naming the expected minimum. -/
lemma parse_record_short (cfg : VcfParser) (hdr : VcfHeader) (n : Nat)
    (bad : String) (hb8 : (splitChar '\t' bad).length < 8) :
    parse_record cfg hdr n bad = .error (.InvalidRecord n
      ("Expected at least 8 fields, found " ++
        toString (splitChar '\t' bad).length)) := by
  unfold parse_record
  rw [if_pos hb8]

/-- In strict mode the record loop aborts at the first invalid line,
with the line number of the error pointing at it. -/
lemma parse_records_strict_error (cfg : VcfParser) (hdr : VcfHeader)
    (hskip : cfg.skip_invalid = false)
    (bad : String) (post : List String)
    (hbne : bad ≠ "") (hb8 : (splitChar '\t' bad).length < 8) :
    ∀ (pre : List String) (n : Nat),
      (∀ l ∈ pre, l ≠ "" ∧ recOk l) →
      parse_records cfg hdr (pre ++ bad :: post) n =
        (.error (.InvalidRecord (n + pre.length + 1)
          ("Expected at least 8 fields, found " ++
            toString (splitChar '\t' bad).length)), []) := by
  intro pre
  induction pre with
  | nil =>
    intro n _
    show parse_records cfg hdr (bad :: post) n = _
    unfold parse_records
    rw [if_neg hbne, parse_record_short cfg hdr (n + 1) bad hb8, hskip]
    simp
  | cons l rest ih =>
    intro n hv
    obtain ⟨hne, hok⟩ := hv l (by simp)
    obtain ⟨r, hr⟩ := (recOk_iff_ok cfg hdr (n + 1) l).mp hok
    have hrest := ih (n + 1) (fun x hx => hv x (by simp [hx]))
    show parse_records cfg hdr (l :: (rest ++ bad :: post)) n = _
    unfold parse_records
    rw [if_neg hne, hr, hrest]
    simp only [List.length_cons]
    rw [show n + 1 + rest.length + 1 = n + (rest.length + 1) + 1 from by omega]
    rfl

/-- In tolerant mode with warning collection, the record loop skips the
single invalid line, records every valid line, and emits exactly one
warning carrying the 1-based line number of the invalid line. -/
lemma parse_records_tolerant_skips (cfg : VcfParser) (hdr : VcfHeader)
    (hskip : cfg.skip_invalid = true) (hcol : cfg.collect_warnings = true)
    (bad : String) (post : List String)
    (hbne : bad ≠ "") (hb8 : (splitChar '\t' bad).length < 8)
    (hpost : ∀ l ∈ post, l ≠ "" ∧ recOk l) :
    ∀ (pre : List String) (n : Nat),
      (∀ l ∈ pre, l ≠ "" ∧ recOk l) →
      ∃ recs, parse_records cfg hdr (pre ++ bad :: post) n =
        (.ok recs,
          [{ line := n + pre.length + 1
             message := (VcfError.InvalidRecord (n + pre.length + 1)
               ("Expected at least 8 fields, found " ++
                 toString (splitChar '\t' bad).length)).toDisplay
             category := .Other }]) ∧
        recs.length = pre.length + post.length := by
  intro pre
  induction pre with
  | nil =>
    intro n _
    obtain ⟨recs, hrecs, hlen⟩ := parse_records_all_ok cfg hdr post (n + 1) hpost
    refine ⟨recs, ?_, by simpa using hlen⟩
    show parse_records cfg hdr (bad :: post) n = _
    unfold parse_records
    rw [if_neg hbne, parse_record_short cfg hdr (n + 1) bad hb8, hrecs]
    simp [hskip, hcol, VcfError.is_recoverable]
  | cons l rest ih =>
    intro n hv
    obtain ⟨hne, hok⟩ := hv l (by simp)
    obtain ⟨r, hr⟩ := (recOk_iff_ok cfg hdr (n + 1) l).mp hok
    obtain ⟨recs, hrest, hlen⟩ := ih (n + 1) (fun x hx => hv x (by simp [hx]))
    refine ⟨r :: recs, ?_, by simp [hlen]; omega⟩
    show parse_records cfg hdr (l :: (rest ++ bad :: post)) n = _
    unfold parse_records
    rw [if_neg hne, hr, hrest]
    simp only [List.length_cons]
    rw [show n + 1 + rest.length + 1 = n + (rest.length + 1) + 1 from by omega]
    rfl

/-- C1: for a file whose header parses and whose data section is valid
non-empty lines except for a single line with fewer than 8 tab-separated
fields: in strict mode (`skip_invalid = false`) `parse` returns an
invalid-record error located at the offending line (and hence no
records); in tolerant mode (`skip_invalid = true`,
`collect_warnings = true`) it returns exactly the N records of the valid
lines plus exactly one warning whose line number is the 1-based number
of the offending line in the file; and an error is classified recoverable —
the condition under which tolerant mode skips it, all other kinds
aborting — exactly when its kind is invalid-record, invalid-position,
invalid-quality or missing-field. -/
theorem parse_fault_policy (cfg : VcfParser) (file pre post : List String)
    (bad : String) (hdr : VcfHeader) (n0 : Nat)
    (hhdr : parse_header file 0 VcfHeader.default =
      .ok (hdr, pre ++ bad :: post, n0))
    (hvalid : ∀ l ∈ pre ++ post, l ≠ "" ∧ recOk l)
    (hbne : bad ≠ "") (hb8 : (splitChar '\t' bad).length < 8) :
    (∃ msg, VcfParser.parse { cfg with skip_invalid := false } file =
      (.error (.InvalidRecord (n0 + pre.length + 1) msg), [])) ∧
    (∃ recs w,
      VcfParser.parse { cfg with skip_invalid := true, collect_warnings := true }
        file = (.ok (hdr, recs), [w]) ∧
      recs.length = pre.length + post.length ∧
      w.line = n0 + pre.length + 1) ∧
    (∀ e : VcfError, e.is_recoverable = true ↔
      ((∃ a b, e = .InvalidRecord a b) ∨ (∃ a b, e = .InvalidPosition a b) ∨
        (∃ a b, e = .InvalidQuality a b) ∨ (∃ a b, e = .MissingField a b))) := by
  have hpre : ∀ l ∈ pre, l ≠ "" ∧ recOk l :=
    fun l hl => hvalid l (List.mem_append_left _ hl)
  have hpost : ∀ l ∈ post, l ≠ "" ∧ recOk l :=
    fun l hl => hvalid l (List.mem_append_right _ hl)
  have hparse : ∀ cfg2 : VcfParser, VcfParser.parse cfg2 file =
      ((parse_records cfg2 hdr (pre ++ bad :: post) n0).1.map
        (fun records => (hdr, records)),
       (parse_records cfg2 hdr (pre ++ bad :: post) n0).2) := by
    intro cfg2
    unfold VcfParser.parse
    rw [hhdr]
  refine ⟨?_, ?_, ?_⟩
  · refine ⟨"Expected at least 8 fields, found " ++
      toString (splitChar '\t' bad).length, ?_⟩
    rw [hparse,
      parse_records_strict_error { cfg with skip_invalid := false } hdr rfl
        bad post hbne hb8 pre n0 hpre]
    rfl
  · obtain ⟨recs, hrecs, hlen⟩ :=
      parse_records_tolerant_skips
        { cfg with skip_invalid := true, collect_warnings := true } hdr rfl rfl
        bad post hbne hb8 hpost pre n0 hpre
    refine ⟨recs,
      { line := n0 + pre.length + 1
        message := (VcfError.InvalidRecord (n0 + pre.length + 1)
          ("Expected at least 8 fields, found " ++
            toString (splitChar '\t' bad).length)).toDisplay
        category := .Other }, ?_, hlen, rfl⟩
    rw [hparse, hrecs]
    rfl
  · intro e
    cases e <;> simp [VcfError.is_recoverable]

/-- Witness for C1: a 2-line header, one valid line, one 2-field line,
one more valid line. -/
theorem parse_fault_policy_witness :
    (parse_header
        ["##fileformat=VCFv4.2",
         "#CHROM\tPOS\tID\tREF\tALT\tQUAL\tFILTER\tINFO",
         "chr1\t100\t.\tA\tG\t.\tPASS\t.",
         "chr1\tbroken",
         "chr1\t200\t.\tA\tG\t.\tPASS\t."] 0 VcfHeader.default =
      .ok ({ VcfHeader.default with
               file_format := "VCFv4.2"
               meta_lines := ["##fileformat=VCFv4.2"] },
           ["chr1\t100\t.\tA\tG\t.\tPASS\t.", "chr1\tbroken",
            "chr1\t200\t.\tA\tG\t.\tPASS\t."], 2) ∧
      (∀ l ∈ ["chr1\t100\t.\tA\tG\t.\tPASS\t."] ++
          ["chr1\t200\t.\tA\tG\t.\tPASS\t."], l ≠ "" ∧ recOk l) ∧
      "chr1\tbroken" ≠ "" ∧ (splitChar '\t' "chr1\tbroken").length < 8) ∧
    ((∃ msg, VcfParser.parse { VcfParser.new with skip_invalid := false }
        ["##fileformat=VCFv4.2",
         "#CHROM\tPOS\tID\tREF\tALT\tQUAL\tFILTER\tINFO",
         "chr1\t100\t.\tA\tG\t.\tPASS\t.",
         "chr1\tbroken",
         "chr1\t200\t.\tA\tG\t.\tPASS\t."] =
        (.error (.InvalidRecord (2 + ["chr1\t100\t.\tA\tG\t.\tPASS\t."].length + 1)
          msg), [])) ∧
      (∃ recs w,
        VcfParser.parse
          { VcfParser.new with skip_invalid := true, collect_warnings := true }
          ["##fileformat=VCFv4.2",
           "#CHROM\tPOS\tID\tREF\tALT\tQUAL\tFILTER\tINFO",
           "chr1\t100\t.\tA\tG\t.\tPASS\t.",
           "chr1\tbroken",
           "chr1\t200\t.\tA\tG\t.\tPASS\t."] =
          (.ok ({ VcfHeader.default with
                    file_format := "VCFv4.2"
                    meta_lines := ["##fileformat=VCFv4.2"] }, recs), [w]) ∧
        recs.length = ["chr1\t100\t.\tA\tG\t.\tPASS\t."].length +
          ["chr1\t200\t.\tA\tG\t.\tPASS\t."].length ∧
        w.line = 2 + ["chr1\t100\t.\tA\tG\t.\tPASS\t."].length + 1) ∧
      (∀ e : VcfError, e.is_recoverable = true ↔
        ((∃ a b, e = .InvalidRecord a b) ∨ (∃ a b, e = .InvalidPosition a b) ∨
          (∃ a b, e = .InvalidQuality a b) ∨ (∃ a b, e = .MissingField a b)))) :=
  ⟨⟨by decide, by decide, by decide, by decide⟩,
    parse_fault_policy VcfParser.new
      ["##fileformat=VCFv4.2",
       "#CHROM\tPOS\tID\tREF\tALT\tQUAL\tFILTER\tINFO",
       "chr1\t100\t.\tA\tG\t.\tPASS\t.",
       "chr1\tbroken",
       "chr1\t200\t.\tA\tG\t.\tPASS\t."]
      ["chr1\t100\t.\tA\tG\t.\tPASS\t."]
      ["chr1\t200\t.\tA\tG\t.\tPASS\t."]
      "chr1\tbroken"
      { VcfHeader.default with
          file_format := "VCFv4.2"
          meta_lines := ["##fileformat=VCFv4.2"] }
      2 (by decide) (by decide) (by decide) (by decide)⟩

/-- Accounting for the tolerant record loop: on success, every
non-empty data line contributed either a record or a warning. -/
lemma parse_records_account (cfg : VcfParser) (hdr : VcfHeader)
    (hskip : cfg.skip_invalid = true) (hcol : cfg.collect_warnings = true) :
    ∀ (ls : List String) (n : Nat) (recs : List VcfRecord)
      (ws : List ParseWarning),
      parse_records cfg hdr ls n = (.ok recs, ws) →
      recs.length + ws.length = (ls.filter (fun s => s ≠ "")).length := by
  intro ls
  induction ls with
  | nil =>
    intro n recs ws h
    rw [show parse_records cfg hdr [] n = (.ok [], []) from rfl,
      Prod.mk.injEq] at h
    obtain ⟨h1, h2⟩ := h
    injection h1 with h1
    simp [← h1, ← h2]
  | cons l rest ih =>
    intro n recs ws h
    by_cases hne : l = ""
    · subst hne
      unfold parse_records at h
      rw [if_pos rfl] at h
      simpa using ih (n + 1) recs ws h
    · unfold parse_records at h
      rw [if_neg hne] at h
      cases hpr : parse_record cfg hdr (n + 1) l with
      | ok r =>
        rw [hpr] at h
        cases hrr : parse_records cfg hdr rest (n + 1) with
        | mk res ws2 =>
          rw [hrr] at h
          cases res with
          | error e => simp [Except.map] at h
          | ok rs =>
            dsimp only [Except.map] at h
            rw [Prod.mk.injEq] at h
            obtain ⟨h1, h2⟩ := h
            injection h1 with h1
            subst h2
            have hacc := ih (n + 1) rs ws2 (by rw [hrr])
            have hflt : (List.filter (fun s => decide (s ≠ "")) (l :: rest)).length =
                (List.filter (fun s => decide (s ≠ "")) rest).length + 1 := by
              simp [hne]
            simp only [← h1, List.length_cons]
            omega
      | error e =>
        rw [hpr] at h
        dsimp only [] at h
        have herec : e.is_recoverable = true :=
          parse_record_error_recoverable hpr
        rw [if_pos ⟨hskip, herec⟩] at h
        cases hrr : parse_records cfg hdr rest (n + 1) with
        | mk res ws2 =>
          rw [hrr] at h
          dsimp only [] at h
          rw [if_pos hcol, Prod.mk.injEq] at h
          obtain ⟨h1, h2⟩ := h
          subst h1
          have hacc := ih (n + 1) recs ws2 (by rw [hrr])
          have hflt : (List.filter (fun s => decide (s ≠ "")) (l :: rest)).length =
              (List.filter (fun s => decide (s ≠ "")) rest).length + 1 := by
            simp [hne]
          have hws : ws.length = ws2.length + 1 := by
            rw [← h2]
            simp
          omega

/-- C3 counterexample: with the QUAL token `abc` — non-missing and not
parsable as a float — the invalid-quality error is neither propagated
nor recorded as a warning: the parse succeeds in strict mode AND in
tolerant mode with warning collection, with zero warnings, and the
quality of the record is silently absent. -/
theorem invalid_quality_silently_discarded_cex :
    ((splitChar '\t' "chr1\t100\t.\tA\tG\tabc\tPASS\tDP=50").getD 5 "" = "abc" ∧
      parseF64? "abc" = none ∧ "abc" ≠ ".") ∧
    VcfParser.parse VcfParser.new
      ["##fileformat=VCFv4.2",
       "#CHROM\tPOS\tID\tREF\tALT\tQUAL\tFILTER\tINFO",
       "chr1\t100\t.\tA\tG\tabc\tPASS\tDP=50"] =
      (.ok ({ VcfHeader.default with
                file_format := "VCFv4.2"
                meta_lines := ["##fileformat=VCFv4.2"] },
            [{ chrom := "chr1", pos := 100, id := none, reference := "A"
               alternate := ["G"], qual := none, filter := .Pass
               info := [("DP", .Integer 50)], samples := [] }]),
       []) ∧
    VcfParser.parse { VcfParser.new with skip_invalid := true }
      ["##fileformat=VCFv4.2",
       "#CHROM\tPOS\tID\tREF\tALT\tQUAL\tFILTER\tINFO",
       "chr1\t100\t.\tA\tG\tabc\tPASS\tDP=50"] =
      (.ok ({ VcfHeader.default with
                file_format := "VCFv4.2"
                meta_lines := ["##fileformat=VCFv4.2"] },
            [{ chrom := "chr1", pos := 100, id := none, reference := "A"
               alternate := ["G"], qual := none, filter := .Pass
               info := [("DP", .Integer 50)], samples := [] }]),
       []) := by
  refine ⟨⟨by decide, by decide, by decide⟩, ?_, ?_⟩
  · decide
  · decide

/-- C3 (amended): every error actually returned by the record parser is
surfaced — in a successful tolerant parse with warning collection the
records and warnings together account for every non-empty data line —
but the record parser can only return invalid-record or
invalid-position errors: the invalid-quality error built for an
unparsable non-missing QUAL token is discarded inside `parse_record`
(the field resolves to absent, see the C2 theorem), so it is never
propagated nor recorded as a warning. -/
theorem errors_propagated_or_warned (cfg cfg2 : VcfParser)
    (hdr hdr2 : VcfHeader) (ls : List String) (n m : Nat) (l : String)
    (recs : List VcfRecord) (ws : List ParseWarning) (e : VcfError)
    (hskip : cfg.skip_invalid = true) (hcol : cfg.collect_warnings = true)
    (hok : parse_records cfg hdr ls n = (.ok recs, ws))
    (herr : parse_record cfg2 hdr2 m l = .error e) :
    recs.length + ws.length = (ls.filter (fun s => s ≠ "")).length ∧
    ((∃ a b, e = .InvalidRecord a b) ∨ (∃ a b, e = .InvalidPosition a b)) ∧
    (∀ a b, e ≠ .InvalidQuality a b) := by
  refine ⟨parse_records_account cfg hdr hskip hcol ls n recs ws hok,
    parse_record_error_inv herr, ?_⟩
  intro a b hq
  rcases parse_record_error_inv herr with ⟨x, y, hxy⟩ | ⟨x, y, hxy⟩ <;>
    rw [hq] at hxy <;> exact VcfError.noConfusion hxy

/-- Witness for the amended C3 theorem: a tolerant parse of one valid and
one invalid line, and a concrete failing `parse_record` call. -/
theorem errors_propagated_or_warned_witness :
    (({ VcfParser.new with skip_invalid := true } : VcfParser).skip_invalid = true ∧
      ({ VcfParser.new with skip_invalid := true } : VcfParser).collect_warnings = true ∧
      parse_records { VcfParser.new with skip_invalid := true } VcfHeader.default
        ["chr1\t100\t.\tA\tG\t.\tPASS\t.", "chr1\tbroken"] 2 =
        (.ok [{ chrom := "chr1", pos := 100, id := none, reference := "A"
                alternate := ["G"], qual := none, filter := .Pass
                info := [], samples := [] }],
         [{ line := 4
            message := "Invalid record at line 4: Expected at least 8 fields, found 2"
            category := .Other }]) ∧
      parse_record VcfParser.new VcfHeader.default 7 "chr1\tbroken" =
        .error (.InvalidRecord 7 "Expected at least 8 fields, found 2")) ∧
    ((1 : Nat) + 1 =
      ((["chr1\t100\t.\tA\tG\t.\tPASS\t.", "chr1\tbroken"] : List String).filter
        (fun s => s ≠ "")).length ∧
      ((∃ a b, (VcfError.InvalidRecord 7 "Expected at least 8 fields, found 2") =
          .InvalidRecord a b) ∨
        (∃ a b, (VcfError.InvalidRecord 7 "Expected at least 8 fields, found 2") =
          .InvalidPosition a b)) ∧
      (∀ a b, (VcfError.InvalidRecord 7 "Expected at least 8 fields, found 2") ≠
        .InvalidQuality a b)) :=
  ⟨⟨by decide, by decide, by decide, by decide⟩,
    errors_propagated_or_warned
      { VcfParser.new with skip_invalid := true } VcfParser.new
      VcfHeader.default VcfHeader.default
      ["chr1\t100\t.\tA\tG\t.\tPASS\t.", "chr1\tbroken"] 2 7 "chr1\tbroken"
      [{ chrom := "chr1", pos := 100, id := none, reference := "A"
         alternate := ["G"], qual := none, filter := .Pass
         info := [], samples := [] }]
      [{ line := 4
         message := "Invalid record at line 4: Expected at least 8 fields, found 2"
         category := .Other }]
      (.InvalidRecord 7 "Expected at least 8 fields, found 2")
      (by decide) (by decide) (by decide) (by decide)⟩

/-- Witness for C10 at a concrete missing-ALT record. -/
theorem missing_alt_is_snp_witness :
    (({ chrom := "chr1", pos := 100, id := none, reference := "A"
        alternate := [], qual := none, filter := .Pass
        info := [], samples := [] } : VcfRecord).reference.length = 1 ∧
      ({ chrom := "chr1", pos := 100, id := none, reference := "A"
         alternate := [], qual := none, filter := .Pass
         info := [], samples := [] } : VcfRecord).alternate = []) ∧
    (({ chrom := "chr1", pos := 100, id := none, reference := "A"
        alternate := [], qual := none, filter := .Pass
        info := [], samples := [] } : VcfRecord).variant_type = .Snp ∧
      (VcfStats.new.update
        { chrom := "chr1", pos := 100, id := none, reference := "A"
          alternate := [], qual := none, filter := .Pass
          info := [], samples := [] }).snps = VcfStats.new.snps + 1 ∧
      (∀ cfg hdr n l r, parse_record cfg hdr n l = .ok r →
        (splitChar '\t' l).getD 4 "" = "." → r.alternate = [])) :=
  ⟨⟨by decide, by decide⟩,
    missing_alt_is_snp
      { chrom := "chr1", pos := 100, id := none, reference := "A"
        alternate := [], qual := none, filter := .Pass
        info := [], samples := [] }
      VcfStats.new (by decide) (by decide)⟩
